import Mathlib

/-!
# Verification of the KXPA100-IC705 controller

Shallow embedding of the controller sources (KXPA100Controller.cpp /
KXPA100Controller.h, CatWifiClient.h, main.cpp) together with proofs about
the band-decision logic, the setBand retry protocol, the reconnect backoff,
the telemetry parsers, and the shared-state publish/dirty-flag discipline.

C++ machine integers are modelled as Nat / Int (no overflow occurs in the
ranges exercised by this program), `float` / `double` arithmetic is modelled
exactly as correctly rounded binary floating point over ℚ (precision 24
resp. 53, round to nearest, ties to even; all values involved are far from
the IEEE-754 overflow/underflow range, so this coincides with IEEE-754
semantics), and the serial / network side effects are modelled as explicit
event traces.
-/

namespace KXPA

/-! ## Band table (KXPA100Controller) -/

/-- One row of KXPA100Controller::_bandTable (struct BandInfo in
KXPA100Controller.h): inclusive frequency bounds in Hz, the display name,
the band-select command and the antenna-select command. -/
structure BandInfo where
  lowerFreq : Nat
  upperFreq : Nat
  name : String
  bandCmd : String
  antennaCmd : String
deriving DecidableEq, Repr

/-- KXPA100Controller::_bandTable: the 11 amateur bands 160m..6m. -/
def bandTable : List BandInfo :=
  [ ⟨1800000, 2000000, "160m", "^BN00;", "^AN1;"⟩,
    ⟨3500000, 3800000, "80m", "^BN01;", "^AN1;"⟩,
    ⟨5351500, 5366500, "60m", "^BN02;", "^AN1;"⟩,
    ⟨7000000, 7200000, "40m", "^BN03;", "^AN1;"⟩,
    ⟨10100000, 10150000, "30m", "^BN04;", "^AN1;"⟩,
    ⟨14000000, 14350000, "20m", "^BN05;", "^AN1;"⟩,
    ⟨18068000, 18168000, "17m", "^BN06;", "^AN1;"⟩,
    ⟨21000000, 21450000, "15m", "^BN07;", "^AN1;"⟩,
    ⟨24890000, 24990000, "12m", "^BN08;", "^AN1;"⟩,
    ⟨28000000, 29700000, "10m", "^BN09;", "^AN1;"⟩,
    ⟨50000000, 52000000, "6m", "^BN10;", "^AN2;"⟩ ]

/-- KXPA100Controller::_bandCount (= 11). -/
def bandCount : Nat := bandTable.length

/-- The scan condition of getBandIndexByFrequency:
freq >= lowerFreq && freq <= upperFreq (both bounds inclusive). -/
def inBand (b : BandInfo) (f : Nat) : Prop :=
  b.lowerFreq ≤ f ∧ f ≤ b.upperFreq

instance (b : BandInfo) (f : Nat) : Decidable (inBand b f) := by
  unfold inBand; infer_instance

/-- The linear scan inside KXPA100Controller::getBandIndexByFrequency,
carrying the running index `i`. -/
def getBandIndexByFrequencyAux (f : Nat) : List BandInfo → Int → Int
  | [], _ => -1
  | b :: rest, i =>
      if inBand b f then i else getBandIndexByFrequencyAux f rest (i + 1)

/-- KXPA100Controller::getBandIndexByFrequency: first band whose inclusive
range contains `f`, else -1. -/
def getBandIndexByFrequency (f : Nat) : Int :=
  getBandIndexByFrequencyAux f bandTable 0

/-- KXPA100Controller::getBandName. -/
def getBandName (index : Int) : String :=
  if index < 0 ∨ (bandCount : Int) ≤ index then "Invalid"
  else (bandTable.getD index.toNat ⟨0, 0, "", "", ""⟩).name

/-! ## SharedData (main.cpp struct SharedData) -/

/-- main.cpp struct SharedData: the mutex-protected cross-task state.
Fields appear in source declaration order. -/
structure SharedData where
  bandIndex : Int
  bandName : String
  power : String
  temp : String
  swr : String
  antenna : String
  mode : String
  faults : String
  voltage : String
  catConnected : Bool
  kxpaConnected : Bool
  manualChangeReq : Bool
  manualTargetBand : Int
  bandDirty : Bool
  powerDirty : Bool
  tempDirty : Bool
  swrDirty : Bool
  antennaDirty : Bool
  modeDirty : Bool
  faultsDirty : Bool
  voltageDirty : Bool
  connectionDirty : Bool
deriving DecidableEq

/-- The C++ member initializers of struct SharedData. -/
def initialSharedData : SharedData :=
  { bandIndex := 0, bandName := "", power := "0", temp := "0", swr := "1.0",
    antenna := "", mode := "", faults := "", voltage := "",
    catConnected := false, kxpaConnected := false,
    manualChangeReq := false, manualTargetBand := 0,
    bandDirty := true, powerDirty := true, tempDirty := true, swrDirty := true,
    antennaDirty := true, modeDirty := true, faultsDirty := true,
    voltageDirty := true, connectionDirty := true }

/-- The backend cycle's locally computed values (main.cpp backendTask locals
kxpaOk, catOk, currentBandIdx and p_bandName, p_power, p_temp, p_swr, p_ant,
p_mode, p_fault, p_volt). -/
structure Polled where
  kxpaOk : Bool
  catOk : Bool
  currentBandIdx : Int
  pBandName : String
  pPower : String
  pTemp : String
  pSwr : String
  pAnt : String
  pMode : String
  pFault : String
  pVolt : String
deriving DecidableEq

/-- Backend step 1 (main.cpp lines 246-253): under the lock, atomically read
the pending manual request, clear the pending flag, and hand back
(updated state, manualReq, target). A failed lock take simply skips this
step, which is modelled by not invoking it. -/
def claimStep (s : SharedData) : SharedData × Bool × Int :=
  if s.manualChangeReq then
    ({ s with manualChangeReq := false }, true, s.manualTargetBand)
  else (s, false, 0)

/-- The publish-step band guard (main.cpp lines 322-324): the band fields are
written only when no manual request is pending (re-checked under the publish
lock) and the value actually changed. -/
def bandWrite (p : Polled) (s : SharedData) : Prop :=
  s.manualChangeReq = false
  ∧ (s.bandIndex ≠ p.currentBandIdx ∨ s.bandName ≠ p.pBandName)

instance (p : Polled) (s : SharedData) : Decidable (bandWrite p s) := by
  unfold bandWrite; infer_instance

/-- Backend step 4 (main.cpp lines 315-366): publish the cycle's local values
into SharedData under one lock acquisition, with per-field value-change
detection setting the per-field dirty flags, the band fields guarded by
`bandWrite`, and the connection flags folded into one connectionDirty flag.
The C++ performs these writes sequentially on distinct fields inside the
single critical section; the simultaneous record assembly below is the same
function of the pre-state (connChanged is computed from the old values
before the connection flags are overwritten, exactly as in the source). -/
def publishStep (p : Polled) (s : SharedData) : SharedData :=
  { s with
    kxpaConnected := p.kxpaOk
    catConnected := p.catOk
    bandIndex := if bandWrite p s then p.currentBandIdx else s.bandIndex
    bandName := if bandWrite p s then p.pBandName else s.bandName
    bandDirty := if bandWrite p s then true else s.bandDirty
    power := if s.power ≠ p.pPower then p.pPower else s.power
    powerDirty := if s.power ≠ p.pPower then true else s.powerDirty
    temp := if s.temp ≠ p.pTemp then p.pTemp else s.temp
    tempDirty := if s.temp ≠ p.pTemp then true else s.tempDirty
    swr := if s.swr ≠ p.pSwr then p.pSwr else s.swr
    swrDirty := if s.swr ≠ p.pSwr then true else s.swrDirty
    antenna := if s.antenna ≠ p.pAnt then p.pAnt else s.antenna
    antennaDirty := if s.antenna ≠ p.pAnt then true else s.antennaDirty
    mode := if s.mode ≠ p.pMode then p.pMode else s.mode
    modeDirty := if s.mode ≠ p.pMode then true else s.modeDirty
    faults := if s.faults ≠ p.pFault then p.pFault else s.faults
    faultsDirty := if s.faults ≠ p.pFault then true else s.faultsDirty
    voltage := if s.voltage ≠ p.pVolt then p.pVolt else s.voltage
    voltageDirty := if s.voltage ≠ p.pVolt then true else s.voltageDirty
    connectionDirty :=
      if s.kxpaConnected ≠ p.kxpaOk ∨ s.catConnected ≠ p.catOk then true
      else s.connectionDirty }

/-- UI BtnB handler critical section (main.cpp lines 474-484): post a manual
band-change request and optimistically update the shared band fields. -/
def postOverride (uiBandCounter : Int) (s : SharedData) : SharedData :=
  { s with manualTargetBand := uiBandCounter,
           manualChangeReq := true,
           bandIndex := uiBandCounter,
           bandName := getBandName uiBandCounter,
           bandDirty := true }

/-- UI render-complete critical section (main.cpp lines 545-554): clear all
per-field dirty flags after drawing (connectionDirty is cleared in its own
section). -/
def clearDirtyFlags (s : SharedData) : SharedData :=
  { s with bandDirty := false, powerDirty := false, tempDirty := false,
           swrDirty := false, antennaDirty := false, modeDirty := false,
           faultsDirty := false, voltageDirty := false }

/-! ## setBand serial protocol (KXPA100Controller::setBand) -/

/-- One observable serial-side effect of setBand. `bandQuery` stands for the
whole getBand() verification exchange (whose internal txRx write/read is
subsumed in this one event). -/
inductive SerialEvent
  | writeCmd (cmd : String)
  | delayMs (ms : Nat)
  | bandQuery
deriving DecidableEq

/-- Fallback row for table reads; never reached under the index bounds
checked before use. -/
def defaultBand : BandInfo := ⟨0, 0, "", "", ""⟩

/-- One setBand attempt (KXPA100Controller.cpp): write the band-select
command, wait _delayComm, write the band's antenna-select command, wait
_delayComm, then verify via getBand(). `dc` is the constructor parameter
_delayComm (DELAY_COMM_MS = 20 at the main.cpp call site). -/
def attemptEvents (dc : Nat) (idx : Nat) : List SerialEvent :=
  [ .writeCmd (bandTable.getD idx defaultBand).bandCmd,
    .delayMs dc,
    .writeCmd (bandTable.getD idx defaultBand).antennaCmd,
    .delayMs dc,
    .bandQuery ]

/-- The setBand retry loop: `resps k` is the result of the k-th getBand()
verification (-1 models an empty or invalid response), `fuel` the remaining
attempts (MAX_RETRIES = 3 at the top-level call). A failed verification
logs, sleeps 50 ms, and retries. -/
def setBandLoop (dc : Nat) (idx : Int) (resps : Nat → Int) (k : Nat) :
    Nat → List SerialEvent
  | 0 => []
  | n + 1 =>
      attemptEvents dc idx.toNat
        ++ if resps k = idx then []
           else SerialEvent.delayMs 50 :: setBandLoop dc idx resps (k + 1) n

/-- KXPA100Controller::setBand as its trace of serial effects: an index
outside [0, _bandCount) is rejected before any serial I/O; otherwise up to
MAX_RETRIES = 3 verified attempts run. The C++ function returns void on
every path (failures are only logged), so this trace is its entire
observable behaviour. -/
def setBandEvents (dc : Nat) (idx : Int) (resps : Nat → Int) : List SerialEvent :=
  if idx < 0 ∨ (bandCount : Int) ≤ idx then [] else setBandLoop dc idx resps 0 3

/-! ## CatWifiClient reconnect backoff -/

/-- CatWifiClient::_getBackoffDelay:
min(INITIAL_BACKOFF_MS * (1 << min(_retryCount, 6)), MAX_BACKOFF_MS) with
INITIAL_BACKOFF_MS = 500 and MAX_BACKOFF_MS = 30000 (all intermediate
values fit in the C++ int and unsigned long types involved). -/
def getBackoffDelay (retryCount : Nat) : Nat :=
  min (500 * 2 ^ min retryCount 6) 30000

/-- CatWifiClient::update(), CONNECTING-timeout path: _retryCount++ followed
by the cap at MAX_RETRIES = 10. -/
def retryStep (retryCount : Nat) : Nat :=
  if 10 ≤ retryCount + 1 then 10 else retryCount + 1

/-- The retry counter after n consecutive immediate connect failures,
starting from the constructor value 0. -/
def retryCountAfter (n : Nat) : Nat := Nat.iterate retryStep n 0

/-! ## Backend CAT-control step (main.cpp lines 298-312) -/

/-- Step 3 of the backend cycle: when the CAT client is connected and no
manual override was claimed this cycle, poll the frequency and, if it maps
to a different valid band index, call setBand and track the new index.
`freqResp = none` models an empty (length 0) response string; the result is
(new currentBandIdx, new p_bandName, list of setBand calls made). -/
def catControlStep (catOk manualReq : Bool) (freqResp : Option Nat)
    (currentBandIdx : Int) (pBandName : String) : Int × String × List Int :=
  if catOk ∧ ¬ manualReq then
    match freqResp with
    | none => (currentBandIdx, pBandName, [])
    | some freq =>
        let newIdx := getBandIndexByFrequency freq
        if 0 ≤ newIdx ∧ newIdx ≤ 10 ∧ newIdx ≠ currentBandIdx then
          (newIdx, getBandName newIdx, [newIdx])
        else (currentBandIdx, pBandName, [])
  else (currentBandIdx, pBandName, [])

/-! ## Exact binary floating point

The telemetry getters compute with C++ float (binary32) and compare against
double (binary64) literals. We model both exactly: a value is an exact
fraction `Fr` (numerator, positive denominator — kept unreduced so every
operation is plain integer arithmetic), and rounding to a binary format is
round-to-nearest, ties-to-even at 24 resp. 53 significant bits with
unbounded exponent, which coincides with IEEE-754 for all values this
program can produce (far from overflow and subnormals). -/

/-- An exact fraction num/den; every constructor below keeps den > 0. -/
structure Fr where
  num : Int
  den : Int
deriving DecidableEq

/-- Embed an integer. -/
def Fr.ofInt (n : Int) : Fr := ⟨n, 1⟩

/-- Exact division by a positive integer (the /10, /1000 scaling factors). -/
def Fr.divInt (a : Fr) (d : Int) : Fr := ⟨a.num, a.den * d⟩

/-- Negation. -/
def Fr.neg (a : Fr) : Fr := ⟨-a.num, a.den⟩

/-- Exact value comparison a < b (cross multiplication; dens positive).
This is what a C++ float/double comparison performs after promotion, since
promotion of float to double is exact. -/
def Fr.flt (a b : Fr) : Prop := a.num * b.den < b.num * a.den

instance (a b : Fr) : Decidable (a.flt b) := by
  unfold Fr.flt; infer_instance

/-- Round to the nearest integer, ties to even (IEEE-754 default rounding,
also used by printf's decimal conversion). -/
def Fr.roundHalfEven (a : Fr) : Int :=
  let f := Int.fdiv a.num a.den
  let r2 := 2 * (a.num - f * a.den)
  if r2 < a.den then f
  else if a.den < r2 then f + 1
  else if f % 2 = 0 then f else f + 1

/-- Fuel-bounded base-2 logarithm (structural recursion so that the kernel
can evaluate it; 128 bits of fuel covers every magnitude reachable here). -/
def log2fuel : Nat → Nat → Nat
  | 0, _ => 0
  | fuel + 1, n => if 2 ≤ n then log2fuel fuel (n / 2) + 1 else 0

/-- Floor of log2 of a natural number (0 for 0 and 1). -/
def natLog2 (n : Nat) : Nat := log2fuel 128 n

/-- Floor of log2 of a positive fraction. -/
def Fr.floorLog2 (a : Fr) : Int :=
  let n := a.num.toNat
  let d := a.den.toNat
  if d ≤ n then (natLog2 (n / d) : Int)
  else
    let m := natLog2 (d / n)
    if d = n * 2 ^ m then -(m : Int) else -((m : Int) + 1)

/-- Multiply by 2^s for an integer s. -/
def Fr.mulPow2 (a : Fr) (s : Int) : Fr :=
  if 0 ≤ s then ⟨a.num * 2 ^ s.toNat, a.den⟩ else ⟨a.num, a.den * 2 ^ (-s).toNat⟩

/-- Round a positive fraction to `prec` significant bits, nearest/ties-even. -/
def Fr.roundPosPrec (prec : Nat) (a : Fr) : Fr :=
  let scale : Int := (prec : Int) - 1 - a.floorLog2
  Fr.mulPow2 ⟨(Fr.mulPow2 a scale).roundHalfEven, 1⟩ (-scale)

/-- Correctly rounded conversion to the binary format with `prec`
significant bits (24 = C++ float, 53 = C++ double). -/
def toFloatPrec (prec : Nat) (a : Fr) : Fr :=
  if a.num = 0 then ⟨0, 1⟩
  else if a.num < 0 then (Fr.roundPosPrec prec a.neg).neg
  else Fr.roundPosPrec prec a

/-- C++ float (binary32) rounding. -/
def fl32 (a : Fr) : Fr := toFloatPrec 24 a

/-- C++ double (binary64) rounding. -/
def fl64 (a : Fr) : Fr := toFloatPrec 53 a

/-- Arduino String(value, 1) on ESP32 (a vsnprintf "%.1f" of the exact
binary value): one fractional digit, rounded to nearest, ties to even. -/
def formatFixed1 (a : Fr) : String :=
  let k := Fr.roundHalfEven ⟨a.num * 10, a.den⟩
  let sign := if k < 0 ∨ (k = 0 ∧ a.num < 0) then "-" else ""
  sign ++ toString (k.natAbs / 10) ++ "." ++ toString (k.natAbs % 10)

/-- Arduino String(value, 0) (a vsnprintf "%.0f"). -/
def formatFixed0 (a : Fr) : String :=
  let k := a.roundHalfEven
  if k = 0 ∧ a.num < 0 then "-0" else toString k

/-! ## Telemetry getters (KXPA100Controller::getSWR/getPower/getTemperature/getVoltage) -/

/-- A non-empty txRx response after the command echo prefix is stripped:
`num n` is a decimal integer payload (the protocol's normal case, parsed
exactly by String::toFloat), `junk` a non-empty string without a leading
numeric part, which String::toFloat (strtod) parses as 0. -/
inductive PayloadKind
  | num (n : Int)
  | junk
deriving DecidableEq

/-- A txRx exchange result: `timeout` is the empty string returned when no
response arrives; `payload` a non-empty response. -/
inductive RawResp
  | timeout
  | payload (p : PayloadKind)
deriving DecidableEq

/-- The C++ float String::toFloat returns for a stripped payload. -/
def toFloatVal : PayloadKind → Fr
  | .num n => fl32 (Fr.ofInt n)
  | .junk => Fr.ofInt 0

/-- The double literal 99.9 in getSWR's sanity check. -/
def dbl99_9 : Fr := fl64 ⟨999, 10⟩

/-- float swr = s.toFloat() / 10.0f -/
def swrVal (p : PayloadKind) : Fr := fl32 ((toFloatVal p).divInt 10)

/-- float pp = p.toFloat() / 10.0f -/
def powerVal (p : PayloadKind) : Fr := fl32 ((toFloatVal p).divInt 10)

/-- float tt = t.toFloat() / 10.0f -/
def tempVal (p : PayloadKind) : Fr := fl32 ((toFloatVal p).divInt 10)

/-- float vv = v.toFloat() / 1000.0f -/
def voltVal (p : PayloadKind) : Fr := fl32 ((toFloatVal p).divInt 1000)

/-- KXPA100Controller::getSWR: "0.0" on empty response; otherwise "ERR"
when swr < 1.0 || swr > 99.9 (double comparisons on the float quotient),
else String(swr, 1). -/
def getSWR : RawResp → String
  | .timeout => "0.0"
  | .payload p =>
      if Fr.flt (swrVal p) (Fr.ofInt 1) ∨ Fr.flt dbl99_9 (swrVal p) then "ERR"
      else formatFixed1 (swrVal p)

/-- KXPA100Controller::getPower: "0" on empty response; "ERR" when
pp < 0 || pp > 150; else String(pp, 0). -/
def getPower : RawResp → String
  | .timeout => "0"
  | .payload p =>
      if Fr.flt (powerVal p) (Fr.ofInt 0) ∨ Fr.flt (Fr.ofInt 150) (powerVal p) then "ERR"
      else formatFixed0 (powerVal p)

/-- KXPA100Controller::getTemperature: "0" on empty response; "ERR" when
tt < -40 || tt > 100; else String(tt, 0). -/
def getTemperature : RawResp → String
  | .timeout => "0"
  | .payload p =>
      if Fr.flt (tempVal p) (Fr.ofInt (-40)) ∨ Fr.flt (Fr.ofInt 100) (tempVal p) then "ERR"
      else formatFixed0 (tempVal p)

/-- KXPA100Controller::getVoltage: "0.0" on empty response; "ERR" when
vv < 0 || vv > 20; else String(vv, 1). -/
def getVoltage : RawResp → String
  | .timeout => "0.0"
  | .payload p =>
      if Fr.flt (voltVal p) (Fr.ofInt 0) ∨ Fr.flt (Fr.ofInt 20) (voltVal p) then "ERR"
      else formatFixed1 (voltVal p)

/-! ## Lock discipline traces (main.cpp loop() and backendTask()) -/

/-- One abstracted step of a task at the granularity relevant to the lock
discipline: taking/giving dataMutex, a rendering action (sprite drawing or
pushSprite/LCD output), serial or network I/O, or a plain sharedState field
access. -/
inductive TaskEvent
  | lockTake
  | lockGive
  | render
  | io
  | sharedOp
deriving DecidableEq

/-- True iff a render or I/O event occurs while the lock is held (depth > 0,
counting takes and gives). -/
def badWhileLocked : Nat → List TaskEvent → Bool
  | _, [] => false
  | d, TaskEvent.lockTake :: r => badWhileLocked (d + 1) r
  | d, TaskEvent.lockGive :: r => badWhileLocked (d - 1) r
  | d, TaskEvent.render :: r => decide (0 < d) || badWhileLocked d r
  | d, TaskEvent.io :: r => decide (0 < d) || badWhileLocked d r
  | d, TaskEvent.sharedOp :: r => badWhileLocked d r

/-- One iteration of the UI task loop() (main.cpp lines 376-557) as its
event trace. Parameters are the branch conditions of that iteration:
the snapshotted s_kxpaConn / s_catConn, the anyDirty result, the
forceUpdate timer condition, sharedState.connectionDirty at the status-line
section, and a BtnB press. Successful lock takes are assumed (a failed take
skips its critical section entirely and can only remove events). The
power-off warning path (lines 419-439, drawing with no lock involvement) is
omitted. Trace, in source order:
lines 387-408 snapshot; lines 473-491 BtnB post (manual mode only);
lines 500-556 display update, where the not-connected branch (505-516)
renders before its dirty-clear section, while the connected branch takes
the lock at 520, draws the status line and bottom menu INSIDE the critical
section when connectionDirty || forceUpdate (521-535), releases at 536,
then draws the two panels (541-542) and clears dirty flags (545-554). -/
def loopTrace (kxpaConn catConn anyDirty forceUpdate connDirty btnB : Bool) :
    List TaskEvent :=
  [TaskEvent.lockTake, TaskEvent.sharedOp, TaskEvent.lockGive]
  ++ (if ¬ catConn ∧ btnB then
        [TaskEvent.lockTake, TaskEvent.sharedOp, TaskEvent.lockGive]
      else [])
  ++ (if forceUpdate ∨ anyDirty then
        if ¬ kxpaConn then
          [TaskEvent.render, TaskEvent.render,
           TaskEvent.lockTake, TaskEvent.sharedOp, TaskEvent.lockGive]
        else
          [TaskEvent.lockTake, TaskEvent.sharedOp]
          ++ (if connDirty ∨ forceUpdate then
                [TaskEvent.render, TaskEvent.render, TaskEvent.sharedOp]
              else [])
          ++ [TaskEvent.lockGive,
              TaskEvent.render, TaskEvent.render,
              TaskEvent.lockTake, TaskEvent.sharedOp, TaskEvent.lockGive]
      else [])

/-- One backend polling cycle (main.cpp backendTask, lines 229-369) as its
event trace: cat.update() network maintenance; the claim critical section
(246-253); setBand serial traffic for a claimed override (269-274);
checkConnection (277); telemetry polls when connected (279-296); the CAT
frequency poll and possible setBand (299-312); the publish critical section
(315-366). Lock sections contain only sharedState accesses. -/
def backendTrace (lock1Ok manualReq kxpaOk catOk lock2Ok : Bool) :
    List TaskEvent :=
  [TaskEvent.io]
  ++ (if lock1Ok then
        [TaskEvent.lockTake, TaskEvent.sharedOp, TaskEvent.lockGive]
      else [])
  ++ (if lock1Ok ∧ manualReq then [TaskEvent.io] else [])
  ++ [TaskEvent.io]
  ++ (if kxpaOk then [TaskEvent.io] else [])
  ++ (if catOk ∧ ¬ (lock1Ok ∧ manualReq) then [TaskEvent.io] else [])
  ++ (if lock2Ok then
        [TaskEvent.lockTake, TaskEvent.sharedOp, TaskEvent.lockGive]
      else [])

/-! ## Theorems -/

/-- Exact description of the scan loop: either no element of `l` matches and
the result is -1, or the result is `i` plus the position of the first
matching element. -/
theorem getBandIndexByFrequencyAux_spec (f : Nat) :
    ∀ (l : List BandInfo) (i : Int),
      (getBandIndexByFrequencyAux f l i = -1 ∧ ∀ b ∈ l, ¬ inBand b f)
      ∨ (∃ j : Nat, ∃ h : j < l.length,
            getBandIndexByFrequencyAux f l i = i + j
            ∧ inBand (l.get ⟨j, h⟩) f
            ∧ ∀ k (hk : k < j), ¬ inBand (l.get ⟨k, Nat.lt_trans hk h⟩) f)
  | [], _ => Or.inl ⟨rfl, by simp⟩
  | b :: rest, i => by
      by_cases hb : inBand b f
      · refine Or.inr ⟨0, by simp, ?_, by simpa using hb, by omega⟩
        simp [getBandIndexByFrequencyAux, hb]
      · rcases getBandIndexByFrequencyAux_spec f rest (i + 1) with
          ⟨h1, h2⟩ | ⟨j, hj, h1, h2, h3⟩
        · refine Or.inl ⟨by simp [getBandIndexByFrequencyAux, hb, h1], ?_⟩
          intro x hx
          rcases List.mem_cons.mp hx with rfl | hx
          · exact hb
          · exact h2 x hx
        · refine Or.inr ⟨j + 1, by simpa using Nat.succ_lt_succ hj, ?_, ?_, ?_⟩
          · rw [show getBandIndexByFrequencyAux f (b :: rest) i
                  = getBandIndexByFrequencyAux f rest (i + 1) by
                simp [getBandIndexByFrequencyAux, hb], h1]
            push_cast
            ring
          · simpa using h2
          · intro k hk
            cases k with
            | zero => simpa using hb
            | succ k2 => simpa using h3 k2 (by omega)

/-- C2: for every frequency `f`, `getBandIndexByFrequency f` is the index of
the first band-table entry whose inclusive range contains `f`, and is -1
when no entry's range contains `f`; moreover for every band, the lower and
the upper bound of that band both map to that band's index. -/
theorem getBandIndexByFrequency_first_match (f : Nat) :
    ((∃ j : Nat, ∃ h : j < bandTable.length,
        getBandIndexByFrequency f = j
        ∧ inBand (bandTable.get ⟨j, h⟩) f
        ∧ ∀ k (hk : k < j), ¬ inBand (bandTable.get ⟨k, Nat.lt_trans hk h⟩) f)
      ∨ (getBandIndexByFrequency f = -1 ∧ ∀ b ∈ bandTable, ¬ inBand b f))
    ∧ (∀ i, ∀ h : i < bandTable.length,
        getBandIndexByFrequency ((bandTable.get ⟨i, h⟩).lowerFreq) = i
        ∧ getBandIndexByFrequency ((bandTable.get ⟨i, h⟩).upperFreq) = i) := by
  constructor
  · rcases getBandIndexByFrequencyAux_spec f bandTable 0 with h | ⟨j, hj, h1, h2, h3⟩
    · exact Or.inr h
    · exact Or.inl ⟨j, hj, by simpa using h1, h2, h3⟩
  · decide

/-- Witness for C2: the 20m lower boundary 14.000 MHz maps to band index 5. -/
theorem getBandIndexByFrequency_first_match_witness :
    getBandIndexByFrequency 14000000 = 5 :=
  ((getBandIndexByFrequency_first_match 14000000).2 5 (by decide)).1

/-- C1: the publish step overwrites the shared band index and band name only
when no manual override request is pending at publish time (the pending flag
is re-checked inside the same atomic publish step that performs the write),
and it never touches the pending flag itself; consequently an override
posted between the cycle's claim step and its publish step survives the
publish: the band fields still hold the override target and the pending
flag is still true afterwards. -/
theorem publish_respects_pending_override (p : Polled) (s : SharedData) (t : Int) :
    (s.manualChangeReq = true →
      (publishStep p s).bandIndex = s.bandIndex
      ∧ (publishStep p s).bandName = s.bandName
      ∧ (publishStep p s).manualChangeReq = true)
    ∧ ((publishStep p (postOverride t (claimStep s).1)).bandIndex = t
      ∧ (publishStep p (postOverride t (claimStep s).1)).bandName = getBandName t
      ∧ (publishStep p (postOverride t (claimStep s).1)).manualChangeReq = true) := by
  constructor
  · intro h
    simp [publishStep, bandWrite, h]
  · unfold claimStep
    split_ifs with h <;> simp [publishStep, bandWrite, postOverride]

/-- Concrete state for the C1 witness: a pending override in an otherwise
default SharedData. -/
def pendingSample : SharedData :=
  { initialSharedData with manualChangeReq := true, manualTargetBand := 3 }

/-- Concrete polled values for the C1 witness: the cycle resolved automatic
band 5 while the override above is pending. -/
def polledSample : Polled :=
  ⟨true, true, 5, "20m", "12", "25", "1.2", "^AN1", "Automatic", "00", "13.8"⟩

/-- Witness for C1: with a pending request the publish step leaves the band
fields and the pending flag alone. -/
theorem publish_respects_pending_override_witness :
    (publishStep polledSample pendingSample).bandIndex = pendingSample.bandIndex
    ∧ (publishStep polledSample pendingSample).bandName = pendingSample.bandName
    ∧ (publishStep polledSample pendingSample).manualChangeReq = true :=
  (publish_respects_pending_override polledSample pendingSample 3).1 rfl

/-- C3: every telemetry field (power, temp, swr, antenna, mode, faults,
voltage) is overwritten, and its dirty flag set, exactly when the published
value differs from the stored value; publishing an equal value changes
neither the field nor its dirty flag. Hence on the write sequence
[v1, v2, v2, v3] (with the renderer clearing dirty flags in between) the
dirty flag is set by v1, set by the first v2, NOT set by the repeated v2,
and set again by v3. -/
theorem telemetry_dirty_tracks_value_change (p : Polled) (s : SharedData)
    (v0 v1 v2 v3 : String) (h1 : v1 ≠ v0) (h2 : v2 ≠ v1) (h3 : v3 ≠ v2) :
    ((publishStep p s).power = (if s.power ≠ p.pPower then p.pPower else s.power)
      ∧ (publishStep p s).powerDirty = (if s.power ≠ p.pPower then true else s.powerDirty))
    ∧ ((publishStep p s).temp = (if s.temp ≠ p.pTemp then p.pTemp else s.temp)
      ∧ (publishStep p s).tempDirty = (if s.temp ≠ p.pTemp then true else s.tempDirty))
    ∧ ((publishStep p s).swr = (if s.swr ≠ p.pSwr then p.pSwr else s.swr)
      ∧ (publishStep p s).swrDirty = (if s.swr ≠ p.pSwr then true else s.swrDirty))
    ∧ ((publishStep p s).antenna = (if s.antenna ≠ p.pAnt then p.pAnt else s.antenna)
      ∧ (publishStep p s).antennaDirty = (if s.antenna ≠ p.pAnt then true else s.antennaDirty))
    ∧ ((publishStep p s).mode = (if s.mode ≠ p.pMode then p.pMode else s.mode)
      ∧ (publishStep p s).modeDirty = (if s.mode ≠ p.pMode then true else s.modeDirty))
    ∧ ((publishStep p s).faults = (if s.faults ≠ p.pFault then p.pFault else s.faults)
      ∧ (publishStep p s).faultsDirty = (if s.faults ≠ p.pFault then true else s.faultsDirty))
    ∧ ((publishStep p s).voltage = (if s.voltage ≠ p.pVolt then p.pVolt else s.voltage)
      ∧ (publishStep p s).voltageDirty = (if s.voltage ≠ p.pVolt then true else s.voltageDirty))
    ∧ (∀ q1 q2 q3 q4 : Polled,
        q1.pPower = v1 → q2.pPower = v2 → q3.pPower = v2 → q4.pPower = v3 →
        ∀ s0 : SharedData, s0.power = v0 → s0.powerDirty = false →
          (publishStep q1 s0).powerDirty = true
          ∧ (publishStep q2 (clearDirtyFlags (publishStep q1 s0))).powerDirty = true
          ∧ (publishStep q3 (clearDirtyFlags (publishStep q2
              (clearDirtyFlags (publishStep q1 s0))))).powerDirty = false
          ∧ (publishStep q4 (clearDirtyFlags (publishStep q3
              (clearDirtyFlags (publishStep q2
                (clearDirtyFlags (publishStep q1 s0))))))).powerDirty = true) := by
  refine ⟨⟨rfl, rfl⟩, ⟨rfl, rfl⟩, ⟨rfl, rfl⟩, ⟨rfl, rfl⟩, ⟨rfl, rfl⟩, ⟨rfl, rfl⟩, ⟨rfl, rfl⟩, ?_⟩
  intro q1 q2 q3 q4 e1 e2 e3 e4 s0 e0 ed
  have ppow : ∀ (q : Polled) (x : SharedData),
      (publishStep q x).power = if x.power ≠ q.pPower then q.pPower else x.power :=
    fun _ _ => rfl
  have pdir : ∀ (q : Polled) (x : SharedData),
      (publishStep q x).powerDirty = if x.power ≠ q.pPower then true else x.powerDirty :=
    fun _ _ => rfl
  have cpow : ∀ x : SharedData, (clearDirtyFlags x).power = x.power := fun _ => rfl
  have cdir : ∀ x : SharedData, (clearDirtyFlags x).powerDirty = false := fun _ => rfl
  have a1 : (publishStep q1 s0).power = v1 := by
    rw [ppow, e0, e1, if_pos (Ne.symm h1)]
  have d1 : (publishStep q1 s0).powerDirty = true := by
    rw [pdir, e0, e1, if_pos (Ne.symm h1)]
  have a1c : (clearDirtyFlags (publishStep q1 s0)).power = v1 := by rw [cpow, a1]
  have a2 : (publishStep q2 (clearDirtyFlags (publishStep q1 s0))).power = v2 := by
    rw [ppow, a1c, e2, if_pos (Ne.symm h2)]
  have d2 : (publishStep q2 (clearDirtyFlags (publishStep q1 s0))).powerDirty = true := by
    rw [pdir, a1c, e2, if_pos (Ne.symm h2)]
  have a2c : (clearDirtyFlags (publishStep q2 (clearDirtyFlags (publishStep q1 s0)))).power = v2 := by
    rw [cpow, a2]
  have d3 : (publishStep q3 (clearDirtyFlags (publishStep q2
      (clearDirtyFlags (publishStep q1 s0))))).powerDirty = false := by
    rw [pdir, a2c, e3, if_neg (by simp), cdir]
  have a3 : (publishStep q3 (clearDirtyFlags (publishStep q2
      (clearDirtyFlags (publishStep q1 s0))))).power = v2 := by
    rw [ppow, a2c, e3, if_neg (by simp)]
  have a3c : (clearDirtyFlags (publishStep q3 (clearDirtyFlags (publishStep q2
      (clearDirtyFlags (publishStep q1 s0)))))).power = v2 := by
    rw [cpow, a3]
  have d4 : (publishStep q4 (clearDirtyFlags (publishStep q3
      (clearDirtyFlags (publishStep q2
        (clearDirtyFlags (publishStep q1 s0))))))).powerDirty = true := by
    rw [pdir, a3c, e4, if_pos (Ne.symm h3)]
  exact ⟨d1, d2, d3, d4⟩

/-- Polled record used by the C3 witness: only the power field matters. -/
def polledPower (v : String) : Polled :=
  ⟨false, false, 0, "", v, "", "", "", "", "", ""⟩

/-- Stored state for the C3 witness: power is "a" and its dirty flag is
clear. -/
def powerSample : SharedData :=
  { initialSharedData with power := "a", powerDirty := false }

/-- Witness for C3: the concrete write sequence a <- b, c, c, d sets dirty
on b, not on the repeated c, and again on d. -/
theorem telemetry_dirty_tracks_value_change_witness :
    (publishStep (polledPower "b") powerSample).powerDirty = true
    ∧ (publishStep (polledPower "c") (clearDirtyFlags (publishStep (polledPower "b") powerSample))).powerDirty = true
    ∧ (publishStep (polledPower "c") (clearDirtyFlags (publishStep (polledPower "c")
        (clearDirtyFlags (publishStep (polledPower "b") powerSample))))).powerDirty = false
    ∧ (publishStep (polledPower "d") (clearDirtyFlags (publishStep (polledPower "c")
        (clearDirtyFlags (publishStep (polledPower "c")
          (clearDirtyFlags (publishStep (polledPower "b") powerSample))))))).powerDirty = true :=
  (telemetry_dirty_tracks_value_change (polledPower "b") powerSample
      "a" "b" "c" "d" (by decide) (by decide) (by decide)).2.2.2.2.2.2.2
    (polledPower "b") (polledPower "c") (polledPower "c") (polledPower "d")
    rfl rfl rfl rfl powerSample rfl rfl

/-- C4: for every index outside [0, 10], setBand returns immediately: its
serial trace is empty (no bytes written, no delays) and in particular it
never invokes getBand. It touches no state at all (the C++ function has no
other effect than serial I/O and logging). -/
theorem setBand_rejects_out_of_range (dc : Nat) (idx : Int) (resps : Nat → Int)
    (h : idx < 0 ∨ 10 < idx) :
    setBandEvents dc idx resps = []
    ∧ SerialEvent.bandQuery ∉ setBandEvents dc idx resps := by
  have hbc : (bandCount : Int) = 11 := by decide
  have hout : idx < 0 ∨ (bandCount : Int) ≤ idx := by omega
  rw [setBandEvents, if_pos hout]
  simp

/-- Witness for C4: index 11 produces no serial traffic. -/
theorem setBand_rejects_out_of_range_witness :
    setBandEvents 20 11 (fun _ => 0) = []
    ∧ SerialEvent.bandQuery ∉ setBandEvents 20 11 (fun _ => 0) :=
  setBand_rejects_out_of_range 20 11 (fun _ => 0) (by decide)

/-- C5: for every index in [0, 10], setBand performs at most 3 attempts,
each consisting of the band-select write, the inter-command delay, the
antenna-select write, another delay and a getBand verification; it stops as
soon as a verification returns the index, pauses 50 ms before each retry,
and after 3 failed attempts ends (with a trailing 50 ms pause from the last
failure) returning normally — the trace is all there is, no failure is
propagated. -/
theorem setBand_retry_protocol (dc : Nat) (idx : Int) (resps : Nat → Int)
    (h0 : 0 ≤ idx) (h10 : idx ≤ 10) :
    ((setBandEvents dc idx resps).count SerialEvent.bandQuery ≤ 3)
    ∧ (resps 0 = idx →
        setBandEvents dc idx resps = attemptEvents dc idx.toNat)
    ∧ (resps 0 ≠ idx → resps 1 = idx →
        setBandEvents dc idx resps
          = attemptEvents dc idx.toNat
            ++ SerialEvent.delayMs 50 :: attemptEvents dc idx.toNat)
    ∧ (resps 0 ≠ idx → resps 1 ≠ idx → resps 2 = idx →
        setBandEvents dc idx resps
          = attemptEvents dc idx.toNat
            ++ SerialEvent.delayMs 50 ::
              (attemptEvents dc idx.toNat
                ++ SerialEvent.delayMs 50 :: attemptEvents dc idx.toNat))
    ∧ (resps 0 ≠ idx → resps 1 ≠ idx → resps 2 ≠ idx →
        setBandEvents dc idx resps
          = attemptEvents dc idx.toNat
            ++ SerialEvent.delayMs 50 ::
              (attemptEvents dc idx.toNat
                ++ SerialEvent.delayMs 50 ::
                  (attemptEvents dc idx.toNat ++ [SerialEvent.delayMs 50]))) := by
  have hbc : (bandCount : Int) = 11 := by decide
  have hif : setBandEvents dc idx resps = setBandLoop dc idx resps 0 3 := by
    rw [setBandEvents, if_neg (by omega)]
  have hcount : ∀ n : Nat, (attemptEvents dc n).count SerialEvent.bandQuery = 1 := by
    intro n
    simp [attemptEvents]
  have hle : ∀ (n k : Nat),
      (setBandLoop dc idx resps k n).count SerialEvent.bandQuery ≤ n := by
    intro n
    induction n with
    | zero => intro k; simp [setBandLoop]
    | succ m ih =>
        intro k
        by_cases hr : resps k = idx
        · simp [setBandLoop, hr, List.count_append, hcount]
        · have := ih (k + 1)
          simp [setBandLoop, hr, List.count_append, List.count_cons, hcount]
          omega
  refine ⟨by rw [hif]; exact hle 3 0, ?_, ?_, ?_, ?_⟩
  · intro r0
    rw [hif]
    simp [setBandLoop, r0]
  · intro r0 r1
    rw [hif]
    simp [setBandLoop, r0, r1]
  · intro r0 r1 r2
    rw [hif]
    simp [setBandLoop, r0, r1, r2]
  · intro r0 r1 r2
    rw [hif]
    simp [setBandLoop, r0, r1, r2]

/-- Witness for C5: band 5 with a first verification answering 5 makes
exactly one attempt. -/
theorem setBand_retry_protocol_witness :
    setBandEvents 20 5 (fun _ => 5) = attemptEvents 20 5 :=
  (setBand_retry_protocol 20 5 (fun _ => 5) (by decide) (by decide)).2.1 rfl

/-- C6: the reconnect backoff delay is 500 ms doubled per retry, the
exponent saturating at 6 and the result capped at 30000 ms; with the retry
counter as maintained by update() (increment per immediate failure, capped
at MAX_RETRIES = 10), consecutive failures are spaced 500, 1000, 2000,
4000, 8000, 16000 and from the 6th failure onwards always 30000 ms. -/
theorem backoff_sequence :
    (∀ r, getBackoffDelay r = min (500 * 2 ^ min r 6) 30000)
    ∧ getBackoffDelay 0 = 500 ∧ getBackoffDelay 1 = 1000
    ∧ getBackoffDelay 2 = 2000 ∧ getBackoffDelay 3 = 4000
    ∧ getBackoffDelay 4 = 8000 ∧ getBackoffDelay 5 = 16000
    ∧ (∀ r, 6 ≤ r → getBackoffDelay r = 30000)
    ∧ (∀ n, retryCountAfter n = min n 10)
    ∧ (∀ n, n ≤ 5 → getBackoffDelay (retryCountAfter n) = getBackoffDelay n)
    ∧ (∀ n, 6 ≤ n → getBackoffDelay (retryCountAfter n) = 30000) := by
  have hcap : ∀ r, 6 ≤ r → getBackoffDelay r = 30000 := by
    intro r h
    rw [getBackoffDelay, Nat.min_eq_right h]
    decide
  have hiter : ∀ n, retryCountAfter n = min n 10 := by
    intro n
    induction n with
    | zero => rfl
    | succ m ih =>
        rw [retryCountAfter, Function.iterate_succ_apply']
        rw [show Nat.iterate retryStep m 0 = retryCountAfter m from rfl, ih, retryStep]
        split_ifs <;> omega
  refine ⟨fun _ => rfl, by decide, by decide, by decide, by decide, by decide, by decide,
    hcap, hiter, ?_, ?_⟩
  · intro n hn
    rw [hiter, Nat.min_eq_left (by omega)]
  · intro n hn
    rw [hiter]
    exact hcap _ (by omega)

/-- Witness for C6: the 7th and every later failure waits the 30 s ceiling. -/
theorem backoff_sequence_witness :
    getBackoffDelay (retryCountAfter 7) = 30000 :=
  backoff_sequence.2.2.2.2.2.2.2.2.2.2 7 (by decide)

/-- C10: when the automatic CAT path is active but the polled frequency lies
in no band (getBandIndexByFrequency returns -1), the backend cycle performs
no setBand call and leaves the currently applied band index (and the band
name) unchanged. -/
theorem cat_step_keeps_band_when_no_match (catOk manualReq : Bool) (freq : Nat)
    (currentBandIdx : Int) (pBandName : String)
    (h : getBandIndexByFrequency freq = -1) :
    catControlStep catOk manualReq (some freq) currentBandIdx pBandName
      = (currentBandIdx, pBandName, []) := by
  simp only [catControlStep]
  split_ifs with hc hidx
  · exfalso
    rw [h] at hidx
    exact absurd hidx.1 (by decide)
  · rfl
  · rfl

/-- Witness for C10: frequency 0 Hz matches no band and changes nothing. -/
theorem cat_step_keeps_band_when_no_match_witness :
    catControlStep true false (some 0) 5 "20m" = (5, "20m", []) :=
  cat_step_keeps_band_when_no_match true false 0 5 "20m" (by decide)

/-- Counterexample for C7: the claim says an unparsable payload yields
"ERR", and that an in-range scaled value (the spec counts 99.9 as in range)
yields the scaled value; but getPower on an unparsable payload parses it as
0, which passes the 0..150 sanity check and yields "0", and getSWR on the
raw payload 999 yields "ERR" because the single-precision quotient
99.90000152587890625 exceeds the double literal 99.9. -/
theorem telemetry_unparsable_cex :
    getPower (RawResp.payload PayloadKind.junk) = "0"
    ∧ getSWR (RawResp.payload (PayloadKind.num 999)) = "ERR" := by
  constructor <;> decide

/-- C7 (amended): an empty (timed-out) response yields the getter's zero
sentinel ("0.0" or "0"), distinct from "ERR"; a non-empty payload is parsed
by String::toFloat (an unparsable payload parses as 0), scaled in float
arithmetic, and the result is "ERR" exactly when the scaled float value
fails the double range comparison (SWR outside [1.0, 99.9], power outside
[0, 150], temperature outside [-40, 100], voltage outside [0, 20], each
boundary compared as the C++ double literal), else the formatted scaled
value. Concrete instances pin the boundaries. -/
theorem telemetry_sentinel_policy :
    (getSWR RawResp.timeout = "0.0" ∧ getPower RawResp.timeout = "0"
      ∧ getTemperature RawResp.timeout = "0" ∧ getVoltage RawResp.timeout = "0.0"
      ∧ ("0.0" : String) ≠ "ERR" ∧ ("0" : String) ≠ "ERR")
    ∧ (∀ p : PayloadKind,
        (Fr.flt (swrVal p) (Fr.ofInt 1) ∨ Fr.flt dbl99_9 (swrVal p) →
          getSWR (RawResp.payload p) = "ERR")
        ∧ (¬ (Fr.flt (swrVal p) (Fr.ofInt 1) ∨ Fr.flt dbl99_9 (swrVal p)) →
          getSWR (RawResp.payload p) = formatFixed1 (swrVal p)))
    ∧ (∀ p : PayloadKind,
        (Fr.flt (powerVal p) (Fr.ofInt 0) ∨ Fr.flt (Fr.ofInt 150) (powerVal p) →
          getPower (RawResp.payload p) = "ERR")
        ∧ (¬ (Fr.flt (powerVal p) (Fr.ofInt 0) ∨ Fr.flt (Fr.ofInt 150) (powerVal p)) →
          getPower (RawResp.payload p) = formatFixed0 (powerVal p)))
    ∧ (∀ p : PayloadKind,
        (Fr.flt (tempVal p) (Fr.ofInt (-40)) ∨ Fr.flt (Fr.ofInt 100) (tempVal p) →
          getTemperature (RawResp.payload p) = "ERR")
        ∧ (¬ (Fr.flt (tempVal p) (Fr.ofInt (-40)) ∨ Fr.flt (Fr.ofInt 100) (tempVal p)) →
          getTemperature (RawResp.payload p) = formatFixed0 (tempVal p)))
    ∧ (∀ p : PayloadKind,
        (Fr.flt (voltVal p) (Fr.ofInt 0) ∨ Fr.flt (Fr.ofInt 20) (voltVal p) →
          getVoltage (RawResp.payload p) = "ERR")
        ∧ (¬ (Fr.flt (voltVal p) (Fr.ofInt 0) ∨ Fr.flt (Fr.ofInt 20) (voltVal p)) →
          getVoltage (RawResp.payload p) = formatFixed1 (voltVal p)))
    ∧ (toFloatVal PayloadKind.junk = Fr.ofInt 0
      ∧ getSWR (RawResp.payload PayloadKind.junk) = "ERR"
      ∧ getSWR (RawResp.payload (PayloadKind.num 10)) = "1.0"
      ∧ getSWR (RawResp.payload (PayloadKind.num 25)) = "2.5"
      ∧ getSWR (RawResp.payload (PayloadKind.num 1000)) = "ERR"
      ∧ getPower (RawResp.payload (PayloadKind.num 1500)) = "150"
      ∧ getPower (RawResp.payload (PayloadKind.num 1501)) = "ERR"
      ∧ getTemperature (RawResp.payload (PayloadKind.num (-400))) = "-40"
      ∧ getTemperature (RawResp.payload (PayloadKind.num (-401))) = "ERR"
      ∧ getTemperature (RawResp.payload (PayloadKind.num 1000)) = "100"
      ∧ getTemperature (RawResp.payload (PayloadKind.num 1001)) = "ERR"
      ∧ getVoltage (RawResp.payload (PayloadKind.num 20000)) = "20.0"
      ∧ getVoltage (RawResp.payload (PayloadKind.num 20001)) = "ERR") := by
  refine ⟨⟨rfl, rfl, rfl, rfl, by decide, by decide⟩, ?_, ?_, ?_, ?_, ?_⟩
  · intro p
    constructor <;> intro h <;> simp [getSWR, h]
  · intro p
    constructor <;> intro h <;> simp [getPower, h]
  · intro p
    constructor <;> intro h <;> simp [getTemperature, h]
  · intro p
    constructor <;> intro h <;> simp [getVoltage, h]
  · refine ⟨rfl, ?_, ?_, ?_, ?_, ?_, ?_, ?_, ?_, ?_, ?_, ?_, ?_⟩ <;> decide

/-- Witness for C7 (amended): a raw SWR payload of 1000 scales to 100.0,
fails the range comparison, and yields "ERR". -/
theorem telemetry_sentinel_policy_witness :
    getSWR (RawResp.payload (PayloadKind.num 1000)) = "ERR" :=
  (telemetry_sentinel_policy.2.1 (PayloadKind.num 1000)).1 (by decide)

/-- Counterexample for C8: the claim says getSWR accepts the raw payload
999 (scaled 99.9, boundary-inclusive) and returns "99.9"; the code computes
999/10.0f in single precision, giving 99.90000152587890625, which is
strictly greater than the double literal 99.9, so the sanity check fires
and getSWR returns "ERR", not "99.9". -/
theorem swr_999_cex :
    getSWR (RawResp.payload (PayloadKind.num 999)) ≠ "99.9" := by
  decide

/-- C8 (amended): a raw SWR payload of 999 is rejected as "ERR" — the float
quotient 999/10.0f strictly exceeds the double literal 99.9 — and a raw
payload of 1000 (scaled 100.0) is likewise rejected as "ERR". -/
theorem swr_boundary_rejections :
    getSWR (RawResp.payload (PayloadKind.num 999)) = "ERR"
    ∧ Fr.flt dbl99_9 (swrVal (PayloadKind.num 999))
    ∧ getSWR (RawResp.payload (PayloadKind.num 1000)) = "ERR" := by
  refine ⟨by decide, by decide, by decide⟩

/-- Counterexample for C9: with the amplifier connected, a display update
due, and the connection-status section active, the UI task draws the status
line and bottom menu while holding the SharedState lock (main.cpp lines
520-535), so rendering does happen inside a critical section. -/
theorem render_inside_lock_cex :
    badWhileLocked 0 (loopTrace true true true true true false) = true := by
  decide

/-- C9 (amended): the UI task snapshots all fields it reads in a single
lock acquisition at the top of loop() with no I/O inside, and no critical
section of either task performs serial or network I/O; rendering, however,
is not fully excluded from critical sections: it happens under the lock
exactly when the connected-path status-line/menu section runs (kxpaConn and
a due display update and connectionDirty || forceUpdate, main.cpp lines
520-535), and nowhere else in either task. -/
theorem lock_discipline :
    (∀ kxpaConn catConn anyDirty forceUpdate connDirty btnB : Bool,
        badWhileLocked 0 (loopTrace kxpaConn catConn anyDirty forceUpdate connDirty btnB)
          = (kxpaConn && (forceUpdate || anyDirty) && (connDirty || forceUpdate)))
    ∧ (∀ lock1Ok manualReq kxpaOk catOk lock2Ok : Bool,
        badWhileLocked 0 (backendTrace lock1Ok manualReq kxpaOk catOk lock2Ok) = false)
    ∧ (∀ kxpaConn catConn anyDirty forceUpdate connDirty btnB : Bool,
        (loopTrace kxpaConn catConn anyDirty forceUpdate connDirty btnB).take 3
          = [TaskEvent.lockTake, TaskEvent.sharedOp, TaskEvent.lockGive]) := by
  refine ⟨?_, ?_, ?_⟩ <;> decide

end KXPA
